import Mathlib

/-!
Verification development for the Mirage location-gated quiz system.

Sources embedded here:
* `src/backend/src/logger.ts` — the bounded in-memory log buffer.
* `src/locar_vite/src/components/MirageARView.tsx` — the AR view's
  question-box close handler and the geo-query service
  (`queryWithinRadius`), including its proximity check and its
  error handling.
* The server-side validation-and-scoring pipeline (QuestionCache,
  CacheRefresher, DistanceValidator, ScoreLedger,
  AnswerSubmissionPipeline) is not present under `src/`; those
  components are modelled from the specification, as marked on each
  definition.

Floating-point numbers of the source are modelled as rationals; the
external great-circle distance function (`geofire-common`'s
`distanceBetween`, which returns kilometres) is taken as a parameter,
since it is a third-party library, not code of this repository.
-/

namespace Mirage

/-! ## Data model -/

/-- A geographic coordinate `{ lat, lng }` in degrees. -/
structure Coordinate where
  lat : ℚ
  lng : ℚ
deriving DecidableEq, Repr

/-- A quiz question as held in a snapshot. -/
structure Question where
  id : String
  location : Coordinate
  answer : String
  hints : List String
  clueIndex : Nat
deriving DecidableEq, Repr

/-- An immutable, versioned snapshot of all quiz questions. -/
structure QuestionSnapshot where
  version : Nat
  questions : List (String × Question)
deriving DecidableEq, Repr

/-- Look up a question by id in a snapshot. -/
def QuestionSnapshot.lookup (s : QuestionSnapshot) (qid : String) : Option Question :=
  (s.questions.find? (fun p => p.1 == qid)).map Prod.snd

/-- Per-team progress record. -/
structure TeamRecord where
  teamId : String
  points : Nat
  answeredQuestionIds : List String
deriving DecidableEq, Repr

/-- The zero-value record for a previously-unseen team. -/
def zeroRecord (teamId : String) : TeamRecord :=
  { teamId := teamId, points := 0, answeredQuestionIds := [] }

/-- One inbound answer submission. -/
structure SubmissionRequest where
  questionId : String
  answer : String
  teamId : String
  position : Coordinate
deriving DecidableEq, Repr

/-- The four rejection reasons of `SubmissionOutcome`. -/
inductive RejectReason where
  | outOfRange
  | incorrect
  | alreadyAnswered
  | questionNotFound
deriving DecidableEq, Repr

/-- Result of one submission: a tagged variant, returned as data. -/
inductive SubmissionOutcome where
  | accepted (nextHint : Option String) (pointsAwarded : Nat)
  | rejected (reason : RejectReason) (distanceMeters : Option ℚ)
deriving DecidableEq, Repr

/-! ## Logger (`src/backend/src/logger.ts`) -/

/-- `MAX_BUFFER_SIZE` from `logger.ts`. -/
def MAX_BUFFER_SIZE : Nat := 500

/-- The `write` callback of `bufferStream` in `logger.ts`: when the buffer
has reached `MAX_BUFFER_SIZE`, `logBuffer.shift()` drops the oldest (first)
entry, then `logBuffer.push(chunk)` appends the new one. -/
def bufferWrite (logBuffer : List String) (chunk : String) : List String :=
  let buf := if MAX_BUFFER_SIZE ≤ logBuffer.length then logBuffer.tail else logBuffer
  buf ++ [chunk]

/-- `getLogs` from `logger.ts`: returns the buffer as is. -/
def getLogs (logBuffer : List String) : List String := logBuffer

/-- Buffer contents after a sequence of writes starting from the empty
buffer of `logger.ts`. -/
def runWrites (chunks : List String) : List String :=
  chunks.foldl bufferWrite []

/-! ## AR view question-box close handler
(`src/locar_vite/src/components/MirageARView.tsx`) -/

/-- A nearby mirage as held in the AR view's selected-cube state. -/
structure NearbyMirage where
  id : Option String
  question : String
deriving DecidableEq, Repr

/-- The argument record of a `checkAnswer` call made by the AR view. -/
structure CheckAnswerCall where
  questionId : String
  answer : String
  teamId : String
  lat : ℚ
  lng : ℚ
deriving DecidableEq, Repr

/-- `handleQuestionBoxClose` from `MirageARView.tsx`: returns the
`checkAnswer` call it performs, or `none` when `answer` is `undefined`.
The selected cube and the device position are in scope in the component
but are not read by the handler; the call uses fixed placeholder strings
and the literal coordinates `0, 0`. -/
def handleQuestionBoxClose (selectedCube : Option NearbyMirage)
    (devicePosition : Coordinate) (answer : Option String) :
    Option CheckAnswerCall :=
  match answer with
  | none => none
  | some a =>
      some { questionId := "baltej_idhar_question_id_dal"
             answer := a
             teamId := "baltej_idhar_team_id_dal"
             lat := 0
             lng := 0 }

/-! ## Geo query service (`firestoreGeoQuery.ts`, bundled in
`src/locar_vite/src/components/MirageARView.tsx`) -/

/-- A location document as stored in Firestore or in `MOCK_LOCATIONS`.
The `id` is the document id; the mock array leaves it commented out. -/
structure LocationDoc where
  id : Option String
  geohash : String
  lat : ℚ
  lng : ℚ
  color : Option Nat
deriving DecidableEq, Repr

/-- A query result entry `{id, lat, lng, color}`. The source's
`color ?? Math.random() * 0xffffff` fallback is modelled by the
`randColor` parameter of `queryWithinRadius`. -/
structure NearbyLocation where
  id : Option String
  lat : ℚ
  lng : ℚ
  color : Nat
deriving DecidableEq, Repr

/-- `MOCK_LOCATIONS` from `firestoreGeoQuery.ts` (the hardcoded test
data; the float literals are exact decimal fractions). -/
def MOCK_LOCATIONS : List LocationDoc :=
  [ { id := none, geohash := "9q9",
      lat := 30.353900264615234, lng := 76.36834756032006,
      color := some 0xff0000 },
    { id := none, geohash := "9q9",
      lat := 30.353961610020384, lng := 76.36880761995873,
      color := some 0xffff00 },
    { id := none, geohash := "9q9",
      lat := 30.354048629884918, lng := 76.36853765450897,
      color := some 0x00ff00 } ]

/-- The distance in meters that `queryWithinRadius` computes for a
candidate at `(lat, lng)` against the query center:
`distanceBetween([lat, lng], centerPoint) * 1000`, where
`distanceBetween` (from `geofire-common`) returns kilometres and is
passed in as the parameter `dKm`. -/
def distanceInM (dKm : Coordinate → Coordinate → ℚ) (loc center : Coordinate) : ℚ :=
  dKm loc center * 1000

/-- The proximity check of `queryWithinRadius`:
`distanceInM <= radiusMeters`. -/
def proximityAccepts (dKm : Coordinate → Coordinate → ℚ)
    (loc center : Coordinate) (radiusMeters : ℚ) : Bool :=
  decide (distanceInM dKm loc center ≤ radiusMeters)

/-- One candidate document mapped to a query result; the random color
fallback is the parameter `randColor`. -/
def toNearby (randColor : Nat) (doc : LocationDoc) : NearbyLocation :=
  { id := doc.id, lat := doc.lat, lng := doc.lng,
    color := doc.color.getD randColor }

/-- `queryWithinRadius` from `firestoreGeoQuery.ts`. The whole body is
wrapped in `try/catch`; the `catch` logs the error and returns `[]`.
The mock path filters `MOCK_LOCATIONS` in memory; the Firebase path
awaits the Firestore fetch (modelled by `fetched`, an `Except` since
`getDocs`/`Promise.all` can fail) and filters the returned documents
the same way. Documents missing `lat` or `lng` are skipped in the
Firebase path; the model's documents always carry both, matching the
mock data and the `LocationDoc` shape. -/
def queryWithinRadius (dKm : Coordinate → Coordinate → ℚ)
    (useMockData : Bool) (fetched : Except String (List LocationDoc))
    (center : Coordinate) (radiusMeters : ℚ) (randColor : Nat) :
    List NearbyLocation :=
  if useMockData then
    (MOCK_LOCATIONS.filter
      (fun loc => proximityAccepts dKm ⟨loc.lat, loc.lng⟩ center radiusMeters)).map
      (toNearby randColor)
  else
    match fetched with
    | Except.error _ => []
    | Except.ok docs =>
        (docs.filter
          (fun doc => proximityAccepts dKm ⟨doc.lat, doc.lng⟩ center radiusMeters)).map
          (toNearby randColor)

/-! ## Server-side core, modelled from the spec

The backend entry point (`backend/src/index.ts`) that implements the
validation-and-scoring pipeline is not present under `src/`; the
components below are modelled from the specification's component
design (§4), with the per-team `tryCommit` critical section taken as
the atomic step, so a run of concurrent submissions is an arbitrary
sequential interleaving of atomic commits. -/

/-- An I/O failure of the durable store, surfaced by `CacheRefresher`. -/
structure IOErr where
  msg : String
deriving DecidableEq, Repr

/-- Modelled from the spec: the `QuestionCache` state, a single
published `QuestionSnapshot` reference. -/
structure CacheState where
  snapshot : QuestionSnapshot
deriving DecidableEq, Repr

/-- Modelled from the spec: `QuestionCache.current()` returns the
currently published snapshot (a point-in-time pointer capture). -/
def CacheState.current (c : CacheState) : QuestionSnapshot := c.snapshot

/-- Modelled from the spec: `QuestionCache.publish(snapshot)` atomically
replaces the published reference. -/
def CacheState.publish (_c : CacheState) (s : QuestionSnapshot) : CacheState :=
  { snapshot := s }

/-- Modelled from the spec: `CacheRefresher.refresh()`. The durable
store's `loadAllQuestions()` result is the parameter `loadResult`. On
success it builds a fresh snapshot with `version = previous.version + 1`
and publishes it; on read failure it returns the `IOError` and leaves
the published snapshot untouched. -/
def refresh (c : CacheState) (loadResult : Except IOErr (List Question)) :
    CacheState × Except IOErr Nat :=
  match loadResult with
  | Except.error e => (c, Except.error e)
  | Except.ok qs =>
      let snap : QuestionSnapshot :=
        { version := c.current.version + 1
          questions := qs.map (fun q => (q.id, q)) }
      (c.publish snap, Except.ok qs.length)

/-- Modelled from the spec: the `ScoreLedger` state, one `TeamRecord`
per team; unseen teams read as the zero-value record. -/
def Ledger : Type := String → TeamRecord

/-- The ledger in which no team has scored yet. -/
def Ledger.empty : Ledger := fun t => zeroRecord t

/-- Modelled from the spec: `ScoreLedger.get(teamId)`. -/
def Ledger.get (st : Ledger) (teamId : String) : TeamRecord := st teamId

/-- Result of `ScoreLedger.tryCommit`. -/
inductive CommitResult where
  | committed (newTotal : Nat)
  | alreadyCommitted
deriving DecidableEq, Repr

/-- Modelled from the spec: `ScoreLedger.tryCommit(teamId, questionId,
pointsToAward)`, one indivisible critical section per team: if
`questionId` is already in the team's `answeredQuestionIds`, return
`AlreadyCommitted` without mutation; otherwise insert it and add the
points in the same atomic step. -/
def tryCommit (st : Ledger) (teamId questionId : String)
    (pointsToAward : Nat) : Ledger × CommitResult :=
  let r := st.get teamId
  if questionId ∈ r.answeredQuestionIds then
    (st, CommitResult.alreadyCommitted)
  else
    let r' : TeamRecord :=
      { r with points := r.points + pointsToAward
               answeredQuestionIds := questionId :: r.answeredQuestionIds }
    (fun t => if t = teamId then r' else st.get t, CommitResult.committed r'.points)

/-- Drop leading and trailing whitespace from a character list. -/
def trimChars (l : List Char) : List Char :=
  ((l.dropWhile Char.isWhitespace).reverse.dropWhile Char.isWhitespace).reverse

/-- Modelled from the spec: answer normalization — case-insensitive,
whitespace-trimmed (trim, then lowercase each character). -/
def normalizeAnswer (s : String) : String :=
  String.mk ((trimChars s.data).map Char.toLower)

/-- Modelled from the spec: `DistanceValidator.within(a, b,
radiusMeters)` — computes the distance in meters (the parameter
`distM`, `GeoMath.distanceMeters`) and compares with `<=` (inclusive
boundary). -/
def within (distM : Coordinate → Coordinate → ℚ) (a b : Coordinate)
    (radiusMeters : ℚ) : Bool × ℚ :=
  let d := distM a b
  (decide (d ≤ radiusMeters), d)

/-- Modelled from the spec: `AnswerSubmissionPipeline.submit(request,
radiusMeters)`, short-circuiting in spec order: question lookup,
distance check, answer match, then the atomic `tryCommit`. Returns the
updated ledger together with the outcome; every rejection is a data
value. -/
def submit (distM : Coordinate → Coordinate → ℚ)
    (snapshot : QuestionSnapshot) (st : Ledger)
    (request : SubmissionRequest) (radiusMeters : ℚ)
    (pointsForQuestion : Nat) : Ledger × SubmissionOutcome :=
  match snapshot.lookup request.questionId with
  | none => (st, SubmissionOutcome.rejected RejectReason.questionNotFound none)
  | some question =>
      let w := within distM request.position question.location radiusMeters
      if w.1 = false then
        (st, SubmissionOutcome.rejected RejectReason.outOfRange (some w.2))
      else if normalizeAnswer request.answer ≠ normalizeAnswer question.answer then
        (st, SubmissionOutcome.rejected RejectReason.incorrect none)
      else
        match tryCommit st request.teamId request.questionId pointsForQuestion with
        | (st', CommitResult.alreadyCommitted) =>
            (st', SubmissionOutcome.rejected RejectReason.alreadyAnswered none)
        | (st', CommitResult.committed _) =>
            (st', SubmissionOutcome.accepted
              (question.hints.get? question.clueIndex) pointsForQuestion)

/-- A run of `n` identical submissions, each observing the ledger left
by the previous one (the interleaving of atomic commits for one
`(teamId, questionId)` pair); returns the final ledger and the
outcomes in order. -/
def submitN (distM : Coordinate → Coordinate → ℚ)
    (snapshot : QuestionSnapshot) (radiusMeters : ℚ)
    (pointsForQuestion : Nat) :
    Nat → Ledger → SubmissionRequest → Ledger × List SubmissionOutcome
  | 0, st, _ => (st, [])
  | n + 1, st, req =>
      let p := submit distM snapshot st req radiusMeters pointsForQuestion
      let rest := submitN distM snapshot radiusMeters pointsForQuestion n p.1 req
      (rest.1, p.2 :: rest.2)

/-- Fold a sequence of `tryCommit` operations
`(teamId, questionId, pointsToAward)` over a ledger. -/
def applyCommits (ops : List (String × String × Nat)) (st : Ledger) : Ledger :=
  ops.foldl (fun s o => (tryCommit s o.1 o.2.1 o.2.2).1) st

/-! ## Theorems -/

theorem bufferWrite_length_le (buf : List String) (chunk : String)
    (h : buf.length ≤ MAX_BUFFER_SIZE) :
    (bufferWrite buf chunk).length ≤ MAX_BUFFER_SIZE := by
  by_cases hc : MAX_BUFFER_SIZE ≤ buf.length
  · have h1 : bufferWrite buf chunk = buf.tail ++ [chunk] := by
      simp [bufferWrite, hc]
    rw [h1]
    have h2 : buf.tail.length = buf.length - 1 := by
      cases buf <;> simp
    rw [List.length_append, h2]
    unfold MAX_BUFFER_SIZE at h hc ⊢
    simp only [List.length_singleton]
    omega
  · have h1 : bufferWrite buf chunk = buf ++ [chunk] := by
      simp [bufferWrite, hc]
    rw [h1, List.length_append]
    unfold MAX_BUFFER_SIZE at hc ⊢
    simp only [List.length_singleton]
    omega

theorem runWrites_length_le (chunks : List String) :
    (runWrites chunks).length ≤ MAX_BUFFER_SIZE := by
  suffices h : ∀ buf : List String, buf.length ≤ MAX_BUFFER_SIZE →
      (chunks.foldl bufferWrite buf).length ≤ MAX_BUFFER_SIZE by
    exact h [] (by simp [MAX_BUFFER_SIZE])
  induction chunks with
  | nil => intro buf hb; simpa using hb
  | cons c cs ih =>
      intro buf hb
      exact ih (bufferWrite buf c) (bufferWrite_length_le buf c hb)

/-- C10: the in-memory log buffer never exceeds 500 entries: a write
against a buffer at capacity first evicts the oldest (first) entry and
then appends, a write against a buffer below capacity just appends, the
500-entry bound is preserved by every write, and every buffer reachable
by writes from the initial empty buffer (as returned by `getLogs`)
satisfies the bound. -/
theorem log_buffer_bounded (buf : List String) (chunk : String)
    (chunks : List String) (h : buf.length ≤ MAX_BUFFER_SIZE) :
    (bufferWrite buf chunk).length ≤ MAX_BUFFER_SIZE ∧
    (buf.length = MAX_BUFFER_SIZE → bufferWrite buf chunk = buf.tail ++ [chunk]) ∧
    (buf.length < MAX_BUFFER_SIZE → bufferWrite buf chunk = buf ++ [chunk]) ∧
    (getLogs (runWrites chunks)).length ≤ MAX_BUFFER_SIZE := by
  refine ⟨bufferWrite_length_le buf chunk h, ?_, ?_, runWrites_length_le chunks⟩
  · intro hfull
    simp [bufferWrite, hfull]
  · intro hlt
    have : ¬ MAX_BUFFER_SIZE ≤ buf.length := by omega
    simp [bufferWrite, this]

/-- Witness for `log_buffer_bounded` at a concrete buffer and write. -/
theorem log_buffer_bounded_witness :
    ["a", "b"].length ≤ MAX_BUFFER_SIZE ∧
    (bufferWrite ["a", "b"] "c").length ≤ MAX_BUFFER_SIZE ∧
    bufferWrite ["a", "b"] "c" = ["a", "b", "c"] := by
  have h := log_buffer_bounded ["a", "b"] "c" ["x"] (by decide)
  exact ⟨by decide, h.1, by simpa using h.2.2.1 (by decide)⟩

/-- C8: every `checkAnswer` call made by `handleQuestionBoxClose` uses
the fixed placeholder question id, team id and the position `(0, 0)`,
independently of the selected cube and of the device position; and when
the supplied answer is `undefined`, no `checkAnswer` call is made. -/
theorem question_box_close_placeholders (cube cube' : Option NearbyMirage)
    (pos pos' : Coordinate) (answer : Option String) :
    handleQuestionBoxClose cube pos none = none ∧
    (∀ a : String, handleQuestionBoxClose cube pos (some a) =
      some { questionId := "baltej_idhar_question_id_dal", answer := a,
             teamId := "baltej_idhar_team_id_dal", lat := 0, lng := 0 }) ∧
    handleQuestionBoxClose cube pos answer =
      handleQuestionBoxClose cube' pos' answer := by
  refine ⟨rfl, fun a => rfl, ?_⟩
  cases answer <;> rfl

/-- C4: a failed refresh surfaces the `IOError` and leaves the cache
state — hence the snapshot returned by `current()` — completely
unchanged. -/
theorem refresh_failure_isolation (c : CacheState) (e : IOErr) :
    (refresh c (Except.error e)).1 = c ∧
    (refresh c (Except.error e)).1.current = c.current ∧
    (refresh c (Except.error e)).2 = Except.error e :=
  ⟨rfl, rfl, rfl⟩

/-- C2: the proximity check of `queryWithinRadius` accepts exactly when
the computed distance in meters is at most the radius; in particular it
returns `true` when the distance equals the radius exactly (inclusive
boundary) and `false` when the distance is strictly greater. -/
theorem proximity_check_inclusive_boundary
    (dKm : Coordinate → Coordinate → ℚ) (a b : Coordinate) (r : ℚ) :
    (proximityAccepts dKm a b r = true ↔ distanceInM dKm a b ≤ r) ∧
    (distanceInM dKm a b = r → proximityAccepts dKm a b r = true) ∧
    (r < distanceInM dKm a b → proximityAccepts dKm a b r = false) := by
  refine ⟨decide_eq_true_iff, fun he => ?_, fun hgt => ?_⟩
  · exact decide_eq_true (le_of_eq he)
  · exact decide_eq_false (not_le_of_lt hgt)

/-- C9: `queryWithinRadius` never propagates an exception: a failed
Firestore fetch is caught and reported as the empty result list, and on
every input the function produces a plain list value. -/
theorem query_within_radius_total
    (dKm : Coordinate → Coordinate → ℚ) (center : Coordinate) (r : ℚ)
    (randColor : Nat) (msg : String) (useMockData : Bool)
    (fetched : Except String (List LocationDoc)) :
    queryWithinRadius dKm false (Except.error msg) center r randColor = [] ∧
    (queryWithinRadius dKm useMockData fetched center r randColor = [] ∨
      ∃ x l, queryWithinRadius dKm useMockData fetched center r randColor = x :: l) := by
  refine ⟨rfl, ?_⟩
  cases hq : queryWithinRadius dKm useMockData fetched center r randColor with
  | nil => exact Or.inl rfl
  | cons x l => exact Or.inr ⟨x, l, rfl⟩

/-! ### ScoreLedger lemmas and invariants -/

theorem tryCommit_of_mem (st : Ledger) (teamId qid : String) (pts : Nat)
    (h : qid ∈ (st.get teamId).answeredQuestionIds) :
    tryCommit st teamId qid pts = (st, CommitResult.alreadyCommitted) := by
  simp [tryCommit, h]

theorem tryCommit_of_not_mem (st : Ledger) (teamId qid : String) (pts : Nat)
    (h : qid ∉ (st.get teamId).answeredQuestionIds) :
    ((tryCommit st teamId qid pts).1.get teamId).points =
      (st.get teamId).points + pts ∧
    ((tryCommit st teamId qid pts).1.get teamId).answeredQuestionIds =
      qid :: (st.get teamId).answeredQuestionIds ∧
    (∀ u, u ≠ teamId → (tryCommit st teamId qid pts).1.get u = st.get u) ∧
    (tryCommit st teamId qid pts).2 =
      CommitResult.committed ((st.get teamId).points + pts) := by
  simp only [Ledger.get] at h
  refine ⟨?_, ?_, ?_, ?_⟩
  · simp [tryCommit, h, Ledger.get]
  · simp [tryCommit, h, Ledger.get]
  · intro u hu
    simp [tryCommit, h, Ledger.get, hu]
  · simp [tryCommit, h, Ledger.get]

theorem tryCommit_points_le (st : Ledger) (teamId qid : String) (pts : Nat)
    (t : String) :
    (st.get t).points ≤ ((tryCommit st teamId qid pts).1.get t).points := by
  by_cases hm : qid ∈ (st.get teamId).answeredQuestionIds
  · simp [tryCommit_of_mem st teamId qid pts hm]
  · by_cases ht : t = teamId
    · subst ht
      rw [(tryCommit_of_not_mem st t qid pts hm).1]
      exact Nat.le_add_right _ _
    · rw [(tryCommit_of_not_mem st teamId qid pts hm).2.2.1 t ht]

theorem applyCommits_points_le (ops : List (String × String × Nat))
    (st : Ledger) (t : String) :
    (st.get t).points ≤ ((applyCommits ops st).get t).points := by
  induction ops generalizing st with
  | nil => simp [applyCommits]
  | cons o os ih =>
      have h1 := tryCommit_points_le st o.1 o.2.1 o.2.2 t
      have h2 := ih (tryCommit st o.1 o.2.1 o.2.2).1
      calc (st.get t).points
          ≤ ((tryCommit st o.1 o.2.1 o.2.2).1.get t).points := h1
        _ ≤ _ := by simpa [applyCommits] using h2

/-- C5: `tryCommit` preserves the TeamRecord invariants: for every team,
`answeredQuestionIds` only grows and points never decrease; a commit
either leaves the whole ledger unchanged (`AlreadyCommitted`) or, in one
atomic step, adds the question id and the points to the one team record
(no state with one mutation but not the other, other teams untouched);
and points are monotonically non-decreasing across any further sequence
of commits, so repeated leaderboard reads never see them drop. -/
theorem ledger_commit_invariants (st : Ledger) (teamId questionId : String)
    (pts : Nat) (ops : List (String × String × Nat)) (t : String) :
    (st.get t).answeredQuestionIds ⊆
      ((tryCommit st teamId questionId pts).1.get t).answeredQuestionIds ∧
    (st.get t).points ≤ ((tryCommit st teamId questionId pts).1.get t).points ∧
    (((tryCommit st teamId questionId pts).1.get t).points ≠ (st.get t).points →
      ((tryCommit st teamId questionId pts).1.get t).answeredQuestionIds ≠
        (st.get t).answeredQuestionIds) ∧
    ((tryCommit st teamId questionId pts).1 = st ∨
      (questionId ∉ (st.get teamId).answeredQuestionIds ∧
       ((tryCommit st teamId questionId pts).1.get teamId).points =
         (st.get teamId).points + pts ∧
       ((tryCommit st teamId questionId pts).1.get teamId).answeredQuestionIds =
         questionId :: (st.get teamId).answeredQuestionIds ∧
       ∀ u, u ≠ teamId →
         (tryCommit st teamId questionId pts).1.get u = st.get u)) ∧
    (st.get t).points ≤ ((applyCommits ops st).get t).points := by
  refine ⟨?_, tryCommit_points_le st teamId questionId pts t, ?_, ?_,
    applyCommits_points_le ops st t⟩
  · by_cases hm : questionId ∈ (st.get teamId).answeredQuestionIds
    · simp [tryCommit_of_mem st teamId questionId pts hm]
    · by_cases ht : t = teamId
      · subst ht
        rw [(tryCommit_of_not_mem st t questionId pts hm).2.1]
        exact List.subset_cons_self _ _
      · rw [(tryCommit_of_not_mem st teamId questionId pts hm).2.2.1 t ht]
        exact fun x hx => hx
  · intro hpts
    by_cases hm : questionId ∈ (st.get teamId).answeredQuestionIds
    · rw [tryCommit_of_mem st teamId questionId pts hm] at hpts
      exact absurd rfl hpts
    · by_cases ht : t = teamId
      · subst ht
        rw [(tryCommit_of_not_mem st t questionId pts hm).2.1]
        exact fun hcontra => (List.cons_ne_self _ _) hcontra
      · rw [(tryCommit_of_not_mem st teamId questionId pts hm).2.2.1 t ht] at hpts
        exact absurd rfl hpts
  · by_cases hm : questionId ∈ (st.get teamId).answeredQuestionIds
    · exact Or.inl (congrArg Prod.fst (tryCommit_of_mem st teamId questionId pts hm))
    · have h := tryCommit_of_not_mem st teamId questionId pts hm
      exact Or.inr ⟨hm, h.1, h.2.1, h.2.2.1⟩

/-- Witness for `ledger_commit_invariants`: committing question `q1` for
team `t1` on the empty ledger adds the id and the points together. -/
theorem ledger_commit_invariants_witness :
    ((tryCommit Ledger.empty "t1" "q1" 10).1.get "t1").points = 0 + 10 ∧
    ((tryCommit Ledger.empty "t1" "q1" 10).1.get "t1").answeredQuestionIds = ["q1"] := by
  have h := ledger_commit_invariants Ledger.empty "t1" "q1" 10 [] "t1"
  rcases h.2.2.2.1 with heq | hcom
  · exact absurd (congrFun heq "t1") (by decide)
  · refine ⟨?_, ?_⟩
    · simpa [Ledger.empty, Ledger.get, zeroRecord] using hcom.2.1
    · simpa [Ledger.empty, Ledger.get, zeroRecord] using hcom.2.2.1

/-! ### Pipeline lemmas -/

theorem submit_of_found (distM : Coordinate → Coordinate → ℚ)
    (snap : QuestionSnapshot) (st : Ledger) (req : SubmissionRequest)
    (r : ℚ) (pts : Nat) (q : Question)
    (hq : snap.lookup req.questionId = some q)
    (hw : distM req.position q.location ≤ r)
    (ha : normalizeAnswer req.answer = normalizeAnswer q.answer) :
    submit distM snap st req r pts =
      match tryCommit st req.teamId req.questionId pts with
      | (st', CommitResult.alreadyCommitted) =>
          (st', SubmissionOutcome.rejected RejectReason.alreadyAnswered none)
      | (st', CommitResult.committed _) =>
          (st', SubmissionOutcome.accepted (q.hints.get? q.clueIndex) pts) := by
  simp [submit, hq, within, decide_eq_true hw, ha]

theorem submit_of_incorrect (distM : Coordinate → Coordinate → ℚ)
    (snap : QuestionSnapshot) (st : Ledger) (req : SubmissionRequest)
    (r : ℚ) (pts : Nat) (q : Question)
    (hq : snap.lookup req.questionId = some q)
    (hw : distM req.position q.location ≤ r)
    (hne : normalizeAnswer req.answer ≠ normalizeAnswer q.answer) :
    submit distM snap st req r pts =
      (st, SubmissionOutcome.rejected RejectReason.incorrect none) := by
  simp [submit, hq, within, decide_eq_true hw, hne]

theorem submit_of_out_of_range (distM : Coordinate → Coordinate → ℚ)
    (snap : QuestionSnapshot) (st : Ledger) (req : SubmissionRequest)
    (r : ℚ) (pts : Nat) (q : Question)
    (hq : snap.lookup req.questionId = some q)
    (hnle : ¬ (distM req.position q.location ≤ r)) :
    submit distM snap st req r pts =
      (st, SubmissionOutcome.rejected RejectReason.outOfRange
        (some (distM req.position q.location))) := by
  simp [submit, hq, within, decide_eq_false hnle]

theorem submit_first_accept (distM : Coordinate → Coordinate → ℚ)
    (snap : QuestionSnapshot) (st : Ledger) (req : SubmissionRequest)
    (r : ℚ) (pts : Nat) (q : Question)
    (hq : snap.lookup req.questionId = some q)
    (hw : distM req.position q.location ≤ r)
    (ha : normalizeAnswer req.answer = normalizeAnswer q.answer)
    (hn : req.questionId ∉ (st.get req.teamId).answeredQuestionIds) :
    (submit distM snap st req r pts).2 =
      SubmissionOutcome.accepted (q.hints.get? q.clueIndex) pts ∧
    ((submit distM snap st req r pts).1.get req.teamId).points =
      (st.get req.teamId).points + pts ∧
    ((submit distM snap st req r pts).1.get req.teamId).answeredQuestionIds =
      req.questionId :: (st.get req.teamId).answeredQuestionIds ∧
    ∀ u, u ≠ req.teamId →
      (submit distM snap st req r pts).1.get u = st.get u := by
  have hf := submit_of_found distM snap st req r pts q hq hw ha
  have htc := tryCommit_of_not_mem st req.teamId req.questionId pts hn
  rcases he : tryCommit st req.teamId req.questionId pts with ⟨st2, cr⟩
  rw [he] at hf
  cases cr with
  | alreadyCommitted =>
      rw [he] at htc
      exact absurd htc.2.2.2 (by simp)
  | committed n =>
      have h1 : (submit distM snap st req r pts).1 = st2 := by rw [hf]
      have h2 : (submit distM snap st req r pts).2 =
          SubmissionOutcome.accepted (q.hints.get? q.clueIndex) pts := by rw [hf]
      have hst2 : (tryCommit st req.teamId req.questionId pts).1 = st2 := by rw [he]
      rw [hst2] at htc
      exact ⟨h2, by rw [h1]; exact htc.1, by rw [h1]; exact htc.2.1,
        fun u hu => by rw [h1]; exact htc.2.2.1 u hu⟩

theorem submit_already_answered (distM : Coordinate → Coordinate → ℚ)
    (snap : QuestionSnapshot) (st : Ledger) (req : SubmissionRequest)
    (r : ℚ) (pts : Nat) (q : Question)
    (hq : snap.lookup req.questionId = some q)
    (hw : distM req.position q.location ≤ r)
    (ha : normalizeAnswer req.answer = normalizeAnswer q.answer)
    (hmem : req.questionId ∈ (st.get req.teamId).answeredQuestionIds) :
    submit distM snap st req r pts =
      (st, SubmissionOutcome.rejected RejectReason.alreadyAnswered none) := by
  have hf := submit_of_found distM snap st req r pts q hq hw ha
  rw [tryCommit_of_mem st req.teamId req.questionId pts hmem] at hf
  exact hf

theorem submitN_already_answered (distM : Coordinate → Coordinate → ℚ)
    (snap : QuestionSnapshot) (r : ℚ) (pts : Nat) (req : SubmissionRequest)
    (q : Question) (hq : snap.lookup req.questionId = some q)
    (hw : distM req.position q.location ≤ r)
    (ha : normalizeAnswer req.answer = normalizeAnswer q.answer)
    (n : Nat) (st : Ledger)
    (hmem : req.questionId ∈ (st.get req.teamId).answeredQuestionIds) :
    submitN distM snap r pts n st req =
      (st, List.replicate n
        (SubmissionOutcome.rejected RejectReason.alreadyAnswered none)) := by
  induction n with
  | zero => simp [submitN]
  | succ m ih =>
      have h1 := submit_already_answered distM snap st req r pts q hq hw ha hmem
      simp [submitN, h1, ih, List.replicate_succ]

/-! ### Scenario constants (spec §8, literal scenario) -/

/-- The spec's literal scenario question `q1`. -/
def scenarioQuestion : Question :=
  { id := "q1", location := { lat := 30.3539, lng := 76.3683 },
    answer := "lighthouse", hints := ["near the bell"], clueIndex := 0 }

/-- A snapshot holding only `q1`. -/
def scenarioSnapshot : QuestionSnapshot :=
  { version := 1, questions := [("q1", scenarioQuestion)] }

/-- The spec's literal scenario submission. -/
def scenarioRequest : SubmissionRequest :=
  { questionId := "q1", answer := "Lighthouse ", teamId := "t1",
    position := { lat := 30.3540, lng := 76.3684 } }

/-- `GeoMath.distanceMeters` for the literal scenario: the submission is
about 12 m from `q1`. -/
def scenarioDistM : Coordinate → Coordinate → ℚ := fun _ _ => 12

/-- The submission of the 500 m scenario (correct answer, far away). -/
def farRequest : SubmissionRequest :=
  { questionId := "q1", answer := "lighthouse", teamId := "t1",
    position := { lat := 30.3584, lng := 76.3683 } }

/-- The library's kilometre-valued `distanceBetween` for the 500 m
scenario: 0.5 km. -/
def farDKm : Coordinate → Coordinate → ℚ := fun _ _ => 1 / 2

/-! ### Claim theorems for the submission pipeline -/

/-- C1: for every run of `N ≥ 1` submissions with the same
`(teamId, questionId)` pair and a correct answer (each atomic commit
observing the ledger left by the previous one), exactly one call is
`Accepted` — the first of the interleaving — and every other call is
`Rejected{AlreadyAnswered}`; the team's points increase by
`pointsForQuestion` exactly once. -/
theorem idempotent_scoring (distM : Coordinate → Coordinate → ℚ)
    (snap : QuestionSnapshot) (st : Ledger) (req : SubmissionRequest)
    (r : ℚ) (pts : Nat) (q : Question) (N : Nat)
    (hq : snap.lookup req.questionId = some q)
    (hw : distM req.position q.location ≤ r)
    (ha : normalizeAnswer req.answer = normalizeAnswer q.answer)
    (hn : req.questionId ∉ (st.get req.teamId).answeredQuestionIds)
    (hN : 0 < N) :
    (submitN distM snap r pts N st req).2 =
      SubmissionOutcome.accepted (q.hints.get? q.clueIndex) pts ::
        List.replicate (N - 1)
          (SubmissionOutcome.rejected RejectReason.alreadyAnswered none) ∧
    ((submitN distM snap r pts N st req).1.get req.teamId).points =
      (st.get req.teamId).points + pts := by
  cases N with
  | zero => exact absurd hN (by simp)
  | succ m =>
      have hacc := submit_first_accept distM snap st req r pts q hq hw ha hn
      have hmem : req.questionId ∈
          ((submit distM snap st req r pts).1.get req.teamId).answeredQuestionIds := by
        rw [hacc.2.2.1]
        exact List.mem_cons_self _ _
      have hrest := submitN_already_answered distM snap r pts req q hq hw ha m
        (submit distM snap st req r pts).1 hmem
      have hnth : submitN distM snap r pts (m + 1) st req =
          ((submitN distM snap r pts m (submit distM snap st req r pts).1 req).1,
            (submit distM snap st req r pts).2 ::
              (submitN distM snap r pts m (submit distM snap st req r pts).1 req).2) := rfl
      rw [hnth, hrest]
      constructor
      · simp [hacc.1]
      · simpa using hacc.2.1

/-- Witness for `idempotent_scoring`: three identical correct
submissions for `(t1, q1)` on the fresh ledger — one `Accepted`, two
`Rejected{AlreadyAnswered}`, and `t1` ends with exactly 10 points. -/
theorem idempotent_scoring_witness :
    (submitN scenarioDistM scenarioSnapshot 50 10 3 Ledger.empty scenarioRequest).2 =
      SubmissionOutcome.accepted (some "near the bell") 10 ::
        List.replicate 2
          (SubmissionOutcome.rejected RejectReason.alreadyAnswered none) ∧
    ((submitN scenarioDistM scenarioSnapshot 50 10 3 Ledger.empty
        scenarioRequest).1.get "t1").points = 10 := by
  have h := idempotent_scoring scenarioDistM scenarioSnapshot Ledger.empty
    scenarioRequest 50 10 scenarioQuestion 3 rfl
    (by norm_num [scenarioDistM, scenarioRequest, scenarioQuestion])
    (by decide) (by decide) (by decide)
  exact ⟨h.1, by simpa [Ledger.empty, Ledger.get, zeroRecord] using h.2⟩

/-- C6: a submission whose question id is absent from the current
snapshot is rejected with `QuestionNotFound` before anything else runs
(the ledger is untouched); and for every input the pipeline produces a
`SubmissionOutcome` data value — an `Accepted` or a `Rejected` — never
an exception. -/
theorem rejections_are_data (distM : Coordinate → Coordinate → ℚ)
    (snap : QuestionSnapshot) (st : Ledger) (req : SubmissionRequest)
    (r : ℚ) (pts : Nat)
    (h : snap.lookup req.questionId = none) :
    submit distM snap st req r pts =
      (st, SubmissionOutcome.rejected RejectReason.questionNotFound none) ∧
    ∀ (snap' : QuestionSnapshot) (st' : Ledger) (req' : SubmissionRequest),
      (∃ hint p, (submit distM snap' st' req' r pts).2 =
        SubmissionOutcome.accepted hint p) ∨
      (∃ reason d, (submit distM snap' st' req' r pts).2 =
        SubmissionOutcome.rejected reason d) := by
  constructor
  · simp [submit, h]
  · intro snap' st' req'
    cases ho : (submit distM snap' st' req' r pts).2 with
    | accepted hint p => exact Or.inl ⟨hint, p, rfl⟩
    | rejected reason d => exact Or.inr ⟨reason, d, rfl⟩

/-- Witness for `rejections_are_data`: a lookup of the unknown id
`q404` against the scenario snapshot yields `QuestionNotFound`. -/
theorem rejections_are_data_witness :
    submit scenarioDistM scenarioSnapshot Ledger.empty
      { questionId := "q404", answer := "x", teamId := "t1",
        position := { lat := 0, lng := 0 } } 50 10 =
      (Ledger.empty, SubmissionOutcome.rejected RejectReason.questionNotFound none) :=
  (rejections_are_data scenarioDistM scenarioSnapshot Ledger.empty
    { questionId := "q404", answer := "x", teamId := "t1",
      position := { lat := 0, lng := 0 } } 50 10 rfl).1

/-- C7: with the question found, the submission in range and the
question not yet answered by the team, the pipeline accepts (with the
hint at `clueIndex` and the points) exactly when the normalized
(trimmed, lowercased) request answer equals the normalized canonical
answer, and rejects with `Incorrect` when the normalized answers
differ. -/
theorem normalized_answer_comparison (distM : Coordinate → Coordinate → ℚ)
    (snap : QuestionSnapshot) (st : Ledger) (req : SubmissionRequest)
    (r : ℚ) (pts : Nat) (q : Question)
    (hq : snap.lookup req.questionId = some q)
    (hw : distM req.position q.location ≤ r)
    (hn : req.questionId ∉ (st.get req.teamId).answeredQuestionIds) :
    ((submit distM snap st req r pts).2 =
        SubmissionOutcome.accepted (q.hints.get? q.clueIndex) pts ↔
      normalizeAnswer req.answer = normalizeAnswer q.answer) ∧
    (normalizeAnswer req.answer ≠ normalizeAnswer q.answer →
      (submit distM snap st req r pts).2 =
        SubmissionOutcome.rejected RejectReason.incorrect none) := by
  by_cases he : normalizeAnswer req.answer = normalizeAnswer q.answer
  · refine ⟨⟨fun _ => he, fun _ => ?_⟩, fun hne => absurd he hne⟩
    exact (submit_first_accept distM snap st req r pts q hq hw he hn).1
  · have hrej := submit_of_incorrect distM snap st req r pts q hq hw he
    refine ⟨⟨fun hacc => ?_, fun hcontra => absurd hcontra he⟩, fun _ => by rw [hrej]⟩
    rw [hrej] at hacc
    exact absurd hacc (by simp)

/-- Witness for `normalized_answer_comparison`: the literal scenario —
answer `"Lighthouse "` against canonical `"lighthouse"`, 12 m away with
a 50 m radius — is accepted with next hint `"near the bell"`. -/
theorem normalized_answer_comparison_witness :
    (submit scenarioDistM scenarioSnapshot Ledger.empty scenarioRequest 50 10).2 =
      SubmissionOutcome.accepted (some "near the bell") 10 := by
  have h := normalized_answer_comparison scenarioDistM scenarioSnapshot
    Ledger.empty scenarioRequest 50 10 scenarioQuestion rfl
    (by norm_num [scenarioDistM, scenarioRequest, scenarioQuestion])
    (by decide)
  exact h.1.mpr (by decide)

/-- C3 counterexample: in the literal 500 m scenario (the library's
kilometre result is 0.5, the radius 50 m), the `OutOfRange` rejection
carries `distanceMeters = 500`, which is nowhere near 500000 — the
claim's stated magnitude is off by three orders. -/
theorem out_of_range_distance_counterexample :
    (submit (distanceInM farDKm) scenarioSnapshot Ledger.empty farRequest
        50 10).2 =
      SubmissionOutcome.rejected RejectReason.outOfRange (some 500) ∧
    ¬ (400000 ≤ (500 : ℚ)) := by
  constructor
  · have hd : distanceInM farDKm farRequest.position
        scenarioQuestion.location = 500 := by
      norm_num [distanceInM, farDKm]
    rw [submit_of_out_of_range (distanceInM farDKm) scenarioSnapshot
      Ledger.empty farRequest 50 10 scenarioQuestion rfl
      (by rw [hd]; norm_num)]
    simp [hd]
  · norm_num

/-- C3 (amended): a submission strictly farther than the radius is
rejected `OutOfRange` carrying the distance in meters, which is the
library's kilometre result multiplied by 1000 — so the 500 m scenario
carries `distanceMeters = 500` (meters, not km). -/
theorem out_of_range_distance_in_meters (dKm : Coordinate → Coordinate → ℚ)
    (snap : QuestionSnapshot) (st : Ledger) (req : SubmissionRequest)
    (r : ℚ) (pts : Nat) (q : Question)
    (hq : snap.lookup req.questionId = some q)
    (hfar : r < distanceInM dKm req.position q.location) :
    distanceInM dKm req.position q.location = 1000 * dKm req.position q.location ∧
    (submit (distanceInM dKm) snap st req r pts).2 =
      SubmissionOutcome.rejected RejectReason.outOfRange
        (some (distanceInM dKm req.position q.location)) := by
  constructor
  · unfold distanceInM; ring
  · rw [submit_of_out_of_range (distanceInM dKm) snap st req r pts q hq
      (not_le_of_lt hfar)]

/-- Witness for `out_of_range_distance_in_meters`: the submission 500 m
from `q1` (0.5 km times 1000) is rejected with `distanceMeters = 500`. -/
theorem out_of_range_distance_in_meters_witness :
    (submit (distanceInM farDKm) scenarioSnapshot Ledger.empty farRequest
        50 10).2 =
      SubmissionOutcome.rejected RejectReason.outOfRange
        (some (distanceInM farDKm farRequest.position
          scenarioQuestion.location)) := by
  have h := out_of_range_distance_in_meters farDKm scenarioSnapshot
    Ledger.empty farRequest 50 10 scenarioQuestion rfl
    (by norm_num [distanceInM, farDKm])
  exact h.2

/-! ### Remaining witnesses at concrete inputs -/

/-- Witness for `proximity_check_inclusive_boundary`: a candidate
exactly 50 m away is accepted at radius 50, one 100 m away is not. -/
theorem proximity_check_inclusive_boundary_witness :
    proximityAccepts (fun _ _ => 1 / 20) { lat := 0, lng := 0 }
      { lat := 0, lng := 0 } 50 = true ∧
    proximityAccepts (fun _ _ => 1 / 10) { lat := 0, lng := 0 }
      { lat := 0, lng := 0 } 50 = false := by
  have h1 := proximity_check_inclusive_boundary (fun _ _ => 1 / 20)
    { lat := 0, lng := 0 } { lat := 0, lng := 0 } 50
  have h2 := proximity_check_inclusive_boundary (fun _ _ => 1 / 10)
    { lat := 0, lng := 0 } { lat := 0, lng := 0 } 50
  exact ⟨h1.2.1 (by norm_num [distanceInM]), h2.2.2 (by norm_num [distanceInM])⟩

/-- Witness for `refresh_failure_isolation`: a failed refresh leaves a
concrete published snapshot in place. -/
theorem refresh_failure_isolation_witness :
    (refresh { snapshot := { version := 7, questions := [] } }
        (Except.error { msg := "disk unavailable" })).1.current =
      ({ version := 7, questions := [] } : QuestionSnapshot) :=
  (refresh_failure_isolation { snapshot := { version := 7, questions := [] } }
    { msg := "disk unavailable" }).2.1

/-- Witness for `question_box_close_placeholders`: closing the box with
answer `"lighthouse"` while a cube is selected still sends the
placeholder ids and position `(0, 0)`. -/
theorem question_box_close_placeholders_witness :
    handleQuestionBoxClose (some { id := some "m1", question := "Q?" })
      { lat := 1, lng := 2 } (some "lighthouse") =
      some { questionId := "baltej_idhar_question_id_dal",
             answer := "lighthouse",
             teamId := "baltej_idhar_team_id_dal", lat := 0, lng := 0 } :=
  (question_box_close_placeholders (some { id := some "m1", question := "Q?" })
    none { lat := 1, lng := 2 } { lat := 0, lng := 0 }
    (some "lighthouse")).2.1 "lighthouse"

/-- Witness for `query_within_radius_total`: a failed Firestore fetch
yields the empty list. -/
theorem query_within_radius_total_witness :
    queryWithinRadius (fun _ _ => 1) false (Except.error "network down")
      { lat := 0, lng := 0 } 50 0 = [] :=
  (query_within_radius_total (fun _ _ => 1) { lat := 0, lng := 0 } 50 0
    "network down" false (Except.error "network down")).1

end Mirage
